import Mathlib

/-!
Verification development for the PlotCouncil renderer engine
(`src/server/main.py`).  The Python code is shallowly embedded: pure string
manipulation is translated to Lean functions over `String`/`List Char`;
the behaviour of the sandboxed worker program produced by
`_build_worker_script` is modelled as a Lean function over an explicit
environment record capturing what the collaborating libraries
(matplotlib, numpy, traceback, textwrap) and the user script do; the
request pipeline `render_plot` / `_run_worker_script` is modelled with
explicit state passing and an event trace recording synthesis, process
spawn, scratch-directory lifecycle and artifact persistence.
-/

namespace PlotCouncil

/-! ## Generic string machinery -/

/-- Carriage-return character, written via its code point. -/
def crChar : Char := Char.ofNat 13

/-- Line-feed character, written via its code point. -/
def lfChar : Char := Char.ofNat 10

/-- Does `pat` occur as a leading run of `hay`? -/
def leadMatch : List Char → List Char → Bool
  | [], _ => true
  | _ :: _, [] => false
  | a :: as, b :: bs => a = b && leadMatch as bs

/-- Does `pat` occur as a contiguous run anywhere in the text? -/
def subSeqAt : List Char → List Char → Bool
  | pat, [] => leadMatch pat []
  | pat, t :: ts => leadMatch pat (t :: ts) || subSeqAt pat ts

/-- Substring test on strings (contiguous occurrence). -/
def strHasSub (needle hay : String) : Bool := subSeqAt needle.data hay.data

theorem strData_append (a b : String) : (a ++ b).data = a.data ++ b.data := by
  cases a; cases b; rfl

theorem strAppend_assoc (a b c : String) : (a ++ b) ++ c = a ++ (b ++ c) := by
  cases a with | mk a =>
  cases b with | mk b =>
  cases c with | mk c =>
  show String.mk (a ++ b ++ c) = String.mk (a ++ (b ++ c))
  rw [List.append_assoc]

theorem leadMatch_self_append (n b : List Char) : leadMatch n (n ++ b) = true := by
  induction n with
  | nil => rfl
  | cons c r ih => simp [leadMatch, ih]

theorem subSeqAt_append_left (n a t : List Char) (h : subSeqAt n t = true) :
    subSeqAt n (a ++ t) = true := by
  induction a with
  | nil => simpa using h
  | cons c r ih => simp [subSeqAt, ih]

theorem subSeqAt_here (n b : List Char) : subSeqAt n (n ++ b) = true := by
  cases hb : n ++ b with
  | nil =>
    cases n with
    | nil => rfl
    | cons c r => simp at hb
  | cons x xs =>
    have h1 : leadMatch n (x :: xs) = true := by
      rw [← hb]; exact leadMatch_self_append n b
    simp [subSeqAt, h1]

/-- The needle occurs in `(a ++ n) ++ b`. -/
theorem strHasSub_mid (a n b : String) : strHasSub n ((a ++ n) ++ b) = true := by
  unfold strHasSub
  rw [strData_append, strData_append, List.append_assoc]
  exact subSeqAt_append_left _ _ _ (subSeqAt_here _ _)

/-- The needle occurs at the end of `a ++ n`. -/
theorem strHasSub_end (a n : String) : strHasSub n (a ++ n) = true := by
  unfold strHasSub
  rw [strData_append]
  refine subSeqAt_append_left _ _ _ ?_
  have h := subSeqAt_here n.data []
  simpa using h

/-! ## Python-style strip and line splitting

`pyStrip` models Python's `str.strip()` (no-argument form: remove
leading and trailing whitespace); `splitLF` models splitting a text into
lines at LF separators (the payloads at issue use LF endings). -/

def isWsChar (c : Char) : Bool :=
  c = Char.ofNat 32 || c = Char.ofNat 9 || c = Char.ofNat 10 ||
  c = Char.ofNat 13 || c = Char.ofNat 11 || c = Char.ofNat 12

def trimChars (l : List Char) : List Char :=
  ((l.dropWhile isWsChar).reverse.dropWhile isWsChar).reverse

/-- Python `str.strip()` restricted to ASCII whitespace. -/
def pyStrip (s : String) : String := String.mk (trimChars s.data)

def splitLF : List Char → List (List Char)
  | [] => [[]]
  | c :: r =>
    match splitLF r with
    | [] => [[]]
    | h :: t => if c = lfChar then [] :: h :: t else (c :: h) :: t

/-! ## CRLF normalization (`req.code.replace("\r\n", "\n")`, main.py:257)

Python's `str.replace` scans left to right replacing non-overlapping
occurrences; specialised here to the fixed pattern CR-LF. -/

def normChars : List Char → List Char
  | [] => []
  | [c] => [c]
  | a :: b :: r =>
    if a = crChar ∧ b = lfChar then lfChar :: normChars r
    else a :: normChars (b :: r)

/-- `code.replace("\r\n", "\n")` from main.py:257. -/
def normalizeCRLF (s : String) : String := String.mk (normChars s.data)

/-- Spec-side transformation: the same text written with CRLF line endings
(each LF replaced by CR-LF). -/
def expandLF : List Char → List Char
  | [] => []
  | c :: r => if c = lfChar then crChar :: lfChar :: expandLF r else c :: expandLF r

theorem normChars_cons (c : Char) (l : List Char) (h : c ≠ crChar) :
    normChars (c :: l) = c :: normChars l := by
  cases l with
  | nil => simp [normChars]
  | cons b r => simp [normChars, h]

theorem normChars_noCR (l : List Char) (h : crChar ∉ l) : normChars l = l := by
  induction l with
  | nil => rfl
  | cons c r ih =>
    have hc : c ≠ crChar := fun e => h (e ▸ List.mem_cons_self c r)
    rw [normChars_cons c r hc, ih (fun m => h (List.mem_cons_of_mem c m))]

theorem normChars_expandLF (l : List Char) (h : crChar ∉ l) :
    normChars (expandLF l) = l := by
  induction l with
  | nil => rfl
  | cons c r ih =>
    have hc : c ≠ crChar := fun e => h (e ▸ List.mem_cons_self c r)
    have hr : crChar ∉ r := fun m => h (List.mem_cons_of_mem c m)
    by_cases hlf : c = lfChar
    · subst hlf
      have hcr : crChar = crChar ∧ lfChar = lfChar := ⟨rfl, rfl⟩
      simp [expandLF, normChars, hcr, ih hr]
    · rw [show expandLF (c :: r) = c :: expandLF r by simp [expandLF, hlf]]
      rw [normChars_cons c _ hc, ih hr]

/-! ## Python literal rendering

`_build_worker_script` embeds the user code as `repr(...)` and the numeric
parameters via f-string interpolation.  `pyRepr` follows Python's `repr`
of `str`: single quotes unless the text contains a single quote and no
double quote; backslash, the quote character, LF, CR and TAB are escaped;
other control characters become `\xhh`; printable characters pass
through. -/

def backslashChar : Char := Char.ofNat 92

def squoteChar : Char := Char.ofNat 39

def dquoteChar : Char := Char.ofNat 34

def digitChar (n : Nat) : Char := Char.ofNat (48 + n)

def hexDigit (n : Nat) : Char :=
  if n < 10 then Char.ofNat (48 + n) else Char.ofNat (87 + n)

def hex2 (n : Nat) : String := String.mk [hexDigit (n / 16 % 16), hexDigit (n % 16)]

def pyEscChar (q c : Char) : String :=
  if c = backslashChar then String.mk [backslashChar, backslashChar]
  else if c = q then String.mk [backslashChar, q]
  else if c = lfChar then String.mk [backslashChar, Char.ofNat 110]
  else if c = crChar then String.mk [backslashChar, Char.ofNat 114]
  else if c = Char.ofNat 9 then String.mk [backslashChar, Char.ofNat 116]
  else if c.toNat < 32 ∨ c.toNat = 127 then String.mk [backslashChar, Char.ofNat 120] ++ hex2 c.toNat
  else String.mk [c]

/-- Python `repr` of a string value (main.py:257 `repr(...)`). -/
def pyRepr (s : String) : String :=
  let q := if s.data.contains squoteChar && !(s.data.contains dquoteChar)
           then dquoteChar else squoteChar
  String.mk [q] ++ String.join (s.data.map (pyEscChar q)) ++ String.mk [q]

/-- Fractional decimal digits of `n / d` (with `n < d`), up to `fuel` digits,
stopping when the remainder is zero. -/
def fracDigits : Nat → Nat → Nat → String
  | 0, _, _ => ""
  | _ + 1, 0, _ => ""
  | fuel + 1, n, d => String.mk [digitChar (n * 10 / d)] ++ fracDigits fuel (n * 10 % d) d

/-- Rendering of a Python float parameter inside the f-string
(`{req.width}`, `{req.height}`).  Python prints the shortest decimal that
round-trips the IEEE double; here the parameter is carried as a rational
and printed as a fixed deterministic decimal expansion (integral values
render as `x.0`, matching Python).  No claim depends on the exact digit
string, only on the rendering being a function of the value. -/
def pyFloat (q : Rat) : String :=
  let sign := if q.num < 0 then "-" else ""
  let a := q.num.natAbs
  let fp := a % q.den
  sign ++ toString (a / q.den) ++ "." ++ (if fp = 0 then "0" else fracDigits 17 fp q.den)

def pad4 (n : Nat) : String :=
  let s := toString n
  String.mk (List.replicate (4 - s.length) (digitChar 0)) ++ s

/-- Model of Python `"{:.4f}".format(x)` for the standard-deviation
statistics: four fractional digits, rounding to nearest (Python rounds
half to even; the tie-breaking mode is immaterial to every claim). -/
def fixed4 (q : Rat) : String :=
  let m : Int := ⌊q * 10000 + 1 / 2⌋
  let sign := if m < 0 then "-" else ""
  let n := m.natAbs
  sign ++ toString (n / 10000) ++ "." ++ pad4 (n % 10000)

/-! ## Render parameters and the Executable-Unit Synthesizer

`RenderRequest` carries the fields of the request schema that the
Synthesizer consumes (main.py:58-63).  The width/height floats are
carried as rationals.  `buildWorkerScript` embeds `_build_worker_script`
(main.py:255-450): the f-string template after `textwrap.dedent` and
`.strip()` (the template's one whitespace-only line is normalized to an
empty line by `dedent`, and the common 8-space margin is removed), with
the three interpolation points (`figure.figsize`, `figure.dpi`,
`user_code`) joined around it.  Literal braces are written as the escapes
x7b / x7d; the two-character sequences backslash-n appearing inside the
generated program's string literals are written as escaped backslashes. -/

structure RenderRequest where
  code : String
  width : Rat
  height : Rat
  dpi : Nat
  timeout : Rat

def workerTemplate1 : String :=
  "import base64\n" ++
  "import io\n" ++
  "import json\n" ++
  "import sys\n" ++
  "import textwrap\n" ++
  "import traceback\n" ++
  "import warnings\n" ++
  "from contextlib import redirect_stdout, redirect_stderr\n" ++
  "\n" ++
  "# Suppress font warnings\n" ++
  "warnings.filterwarnings(\"ignore\", message=\".*Glyph.*missing from.*\")\n" ++
  "warnings.filterwarnings(\"ignore\", message=\".*FigureCanvasAgg is non-interactive.*\")\n" ++
  "warnings.filterwarnings(\"ignore\", message=\".*font cache.*\")\n" ++
  "\n" ++
  "import matplotlib\n" ++
  "matplotlib.use(\"Agg\")\n" ++
  "import matplotlib.pyplot as plt\n" ++
  "from matplotlib.backends.backend_agg import FigureCanvasAgg as FigureCanvas\n" ++
  "from matplotlib import _pylab_helpers\n" ++
  "import numpy as np\n" ++
  "import pandas as pd\n" ++
  "import scipy\n" ++
  "\n" ++
  "# Configure matplotlib to use fonts with better Unicode support\n" ++
  "plt.rcParams[\"font.family\"] = [\"DejaVu Sans\", \"sans-serif\"]\n" ++
  "plt.rcParams[\"mathtext.fontset\"] = \"dejavusans\"\n" ++
  "plt.rcParams[\"figure.figsize\"] = ("

def workerTemplate2 : String :=
  ")\n" ++
  "plt.rcParams[\"figure.dpi\"] = "

def workerTemplate3 : String :=
  "\n" ++
  "plt.rcParams[\"savefig.facecolor\"] = \"white\"\n" ++
  "plt.rcParams[\"figure.facecolor\"] = \"white\"\n" ++
  "\n" ++
  "namespace = \x7b\n" ++
  "    \"__builtins__\": __builtins__,\n" ++
  "    \"__name__\": \"__main__\",\n" ++
  "    \"__file__\": \"student_code.py\",\n" ++
  "    \"__package__\": None,\n" ++
  "    \"plt\": plt,\n" ++
  "    \"np\": np,\n" ++
  "    \"pd\": pd,\n" ++
  "    \"scipy\": scipy,\n" ++
  "\x7d\n" ++
  "\n" ++
  "user_code = "

def workerTemplate4 : String :=
  "\n" ++
  "\n" ++
  "log_stream = io.StringIO()\n" ++
  "payload = \x7b\"png\": None, \"svg\": None, \"logs\": \"\", \"error\": None\x7d\n" ++
  "\n" ++
  "with redirect_stdout(log_stream), redirect_stderr(log_stream):\n" ++
  "    try:\n" ++
  "        # Prevent user code from closing/clearing figures right before we capture them.\n" ++
  "        def _noop(*args, **kwargs):\n" ++
  "            return None\n" ++
  "        plt.close = _noop\n" ++
  "        plt.clf = _noop\n" ++
  "        plt.cla = _noop\n" ++
  "\n" ++
  "        exec(compile(user_code, \"student_code.py\", \"exec\"), namespace)\n" ++
  "\n" ++
  "        managers = _pylab_helpers.Gcf.get_all_fig_managers()\n" ++
  "        fig = managers[-1].canvas.figure if managers else plt.gcf()\n" ++
  "        if not fig.axes:\n" ++
  "            entry_points = [\n" ++
  "                \"create_plot\",\n" ++
  "                \"create_figure\",\n" ++
  "                \"create_replication\",\n" ++
  "                \"build_plot\",\n" ++
  "                \"build_figure\",\n" ++
  "                \"generate_plot\",\n" ++
  "                \"main\",\n" ++
  "            ]\n" ++
  "            for name in entry_points:\n" ++
  "                fn = namespace.get(name)\n" ++
  "                if not callable(fn):\n" ++
  "                    continue\n" ++
  "                try:\n" ++
  "                    candidate = fn()\n" ++
  "                except TypeError:\n" ++
  "                    continue\n" ++
  "                if candidate is not None:\n" ++
  "                    if hasattr(candidate, \"axes\") and candidate.axes:\n" ++
  "                        fig = candidate\n" ++
  "                        break\n" ++
  "                    if isinstance(candidate, (list, tuple)):\n" ++
  "                        for item in candidate:\n" ++
  "                            if hasattr(item, \"axes\") and item.axes:\n" ++
  "                                fig = item\n" ++
  "                                break\n" ++
  "                        if fig.axes:\n" ++
  "                            break\n" ++
  "                fig = plt.gcf()\n" ++
  "                if fig.axes:\n" ++
  "                    break\n" ++
  "\n" ++
  "        if not fig.axes:\n" ++
  "            ax = fig.add_subplot(111)\n" ++
  "            ax.set_axis_off()\n" ++
  "            ax.text(0.5, 0.55, \"No plot was generated\", ha=\"center\", va=\"center\", fontsize=14)\n" ++
  "\n" ++
  "        # Some student code sets tick formatters that may throw (e.g., int(NaN)) during draw.\n" ++
  "        # Wrap FuncFormatter callbacks to prevent the whole render from crashing.\n" ++
  "        import matplotlib.ticker as mticker\n" ++
  "        formatter_errors = []\n" ++
  "\n" ++
  "        def _wrap_formatter(formatter):\n" ++
  "            if isinstance(formatter, mticker.FuncFormatter):\n" ++
  "                original = formatter.func\n" ++
  "\n" ++
  "                def _safe(value, pos=None):\n" ++
  "                    try:\n" ++
  "                        return original(value, pos)\n" ++
  "                    except Exception as exc:\n" ++
  "                        if not formatter_errors:\n" ++
  "                            formatter_errors.append(\n" ++
  "                                \"FORMATTER_ERROR suppressed: \"\n" ++
  "                                + exc.__class__.__name__\n" ++
  "                                + \": \"\n" ++
  "                                + str(exc)\n" ++
  "                            )\n" ++
  "                        return \"\"\n" ++
  "\n" ++
  "                return mticker.FuncFormatter(_safe)\n" ++
  "            return formatter\n" ++
  "\n" ++
  "        for ax in fig.axes:\n" ++
  "            ax.xaxis.set_major_formatter(_wrap_formatter(ax.xaxis.get_major_formatter()))\n" ++
  "            ax.xaxis.set_minor_formatter(_wrap_formatter(ax.xaxis.get_minor_formatter()))\n" ++
  "            ax.yaxis.set_major_formatter(_wrap_formatter(ax.yaxis.get_major_formatter()))\n" ++
  "            ax.yaxis.set_minor_formatter(_wrap_formatter(ax.yaxis.get_minor_formatter()))\n" ++
  "\n" ++
  "        # Detect near-blank renders (e.g., code ran but produced an empty canvas)\n" ++
  "        canvas = FigureCanvas(fig)\n" ++
  "        canvas.draw()\n" ++
  "        rgba = np.asarray(canvas.buffer_rgba())\n" ++
  "        # Use RGB only; ignore alpha. Stddev close to 0 => near-uniform image.\n" ++
  "        rgb = rgba[..., :3]\n" ++
  "        pixel_std = float(rgb.std())\n" ++
  "        h, w, _ = rgb.shape\n" ++
  "        y0, y1 = int(h * 0.2), int(h * 0.8)\n" ++
  "        x0, x1 = int(w * 0.2), int(w * 0.8)\n" ++
  "        center_std = float(rgb[y0:y1, x0:x1].std()) if (y1 > y0 and x1 > x0) else pixel_std\n" ++
  "\n" ++
  "        buffer = io.BytesIO()\n" ++
  "        fig.savefig(buffer, format=\"png\", bbox_inches=\"tight\")\n" ++
  "        payload[\"png\"] = base64.b64encode(buffer.getvalue()).decode(\"utf-8\")\n" ++
  "\n" ++
  "        # Also save as SVG\n" ++
  "        svg_buffer = io.BytesIO()\n" ++
  "        fig.savefig(svg_buffer, format=\"svg\", bbox_inches=\"tight\")\n" ++
  "        payload[\"svg\"] = base64.b64encode(svg_buffer.getvalue()).decode(\"utf-8\")\n" ++
  "\n" ++
  "        if pixel_std < 2.0 or center_std < 2.0:\n" ++
  "            payload[\"error\"] = \"BLANK_PLOT\"\n" ++
  "            _base_logs = log_stream.getvalue()\n" ++
  "            if formatter_errors:\n" ++
  "                _base_logs = _base_logs + \"\\n\" + formatter_errors[0]\n" ++
  "            payload[\"logs\"] = _base_logs + \"\\nBLANK_PLOT_DETECTED pixel_std=\x7b:.4f\x7d center_std=\x7b:.4f\x7d\".format(pixel_std, center_std)\n" ++
  "    except Exception:\n" ++
  "        payload[\"error\"] = \"EXECUTION_ERROR\"\n" ++
  "        tb = traceback.format_exc()\n" ++
  "        payload[\"logs\"] = log_stream.getvalue() + \"\\n\" + tb\n" ++
  "\n" ++
  "        # Always return a PNG so the UI never shows an empty canvas.\n" ++
  "        fig = plt.figure()\n" ++
  "        ax = fig.add_subplot(111)\n" ++
  "        ax.set_axis_off()\n" ++
  "        header = \"EXECUTION_ERROR (rendered placeholder)\"\n" ++
  "        # Keep message short enough to be readable in the UI.\n" ++
  "        tail = \"\\n\".join(tb.strip().splitlines()[-18:])\n" ++
  "        msg = header + \"\\n\\n\" + tail\n" ++
  "        msg = textwrap.fill(msg, width=88, replace_whitespace=False, drop_whitespace=False)\n" ++
  "        ax.text(\n" ++
  "            0.02,\n" ++
  "            0.98,\n" ++
  "            msg,\n" ++
  "            ha=\"left\",\n" ++
  "            va=\"top\",\n" ++
  "            fontsize=10,\n" ++
  "            family=\"monospace\",\n" ++
  "            color=\"#b91c1c\",\n" ++
  "            transform=ax.transAxes,\n" ++
  "        )\n" ++
  "        buffer = io.BytesIO()\n" ++
  "        fig.savefig(buffer, format=\"png\", bbox_inches=\"tight\")\n" ++
  "        payload[\"png\"] = base64.b64encode(buffer.getvalue()).decode(\"utf-8\")\n" ++
  "    else:\n" ++
  "        payload[\"logs\"] = log_stream.getvalue() + (\"\\n\" + formatter_errors[0] if formatter_errors else \"\")\n" ++
  "\n" ++
  "print(json.dumps(payload))\n" ++
  "sys.exit(0 if payload[\"error\"] is None else 1)"

/-- `_build_worker_script(req)` (main.py:255-450): the dedented, stripped
worker program text with the request parameters interpolated; the user
source has its CRLF line endings normalized and is embedded as a Python
string literal via `repr`. -/
def buildWorkerScript (req : RenderRequest) : String :=
  workerTemplate1 ++ pyFloat req.width ++ ", " ++ pyFloat req.height ++
    workerTemplate2 ++ toString req.dpi ++
    workerTemplate3 ++ pyRepr (normalizeCRLF req.code) ++
    workerTemplate4

/-! ## Semantics of the generated worker program

The worker program's run-time behaviour (main.py:302-448, the code inside
the `with redirect_stdout/redirect_stderr` block) is modelled as a Lean
function over a `WorkerEnv` record.  The record carries everything the
collaborating libraries and the user script contribute: whether `exec`
of the user code raised, the captured log stream, the matplotlib figure
state after execution, the callables reachable through the execution
namespace, and the behaviour of `traceback.format_exc`, `textwrap.fill`,
the canvas statistics and the two image encoders.  Figures are modelled
as immutable snapshots (in-place mutation of a previously captured
figure object by a later entry-point call is not modelled). -/

/-- A Python exception: its class name and message. -/
structure PyError where
  name : String
  msg : String
  deriving DecidableEq

/-- A tick-label formatter attached to an axis: a `FuncFormatter` carrying
a user callback (which may raise), or any other formatter kind. -/
inductive Formatter where
  | func (callback : Rat → Except PyError String)
  | other

/-- One drawable panel: its four formatter slots, each paired with the
tick values the locator feeds it at draw time, plus presentation state. -/
structure AxisSlots where
  xMajor : Formatter × List Rat
  xMinor : Formatter × List Rat
  yMajor : Formatter × List Rat
  yMinor : Formatter × List Rat
  axisOff : Bool
  texts : List String

/-- A figure: its list of drawable panels (`fig.axes`). -/
structure Fig where
  axes : List AxisSlots

/-- A Python value as inspected by the entry-point search: `None`, an
object exposing an `axes` attribute (figure- or axes-like), a
list/tuple, or anything else. -/
inductive PyVal where
  | pyNone
  | figLike (f : Fig)
  | seq (items : List PyVal)
  | opaqueVal

/-- Result of invoking an entry-point callable with no arguments, given
the current `plt.gcf()` figure: a `TypeError` (treated as try-next), a
propagating exception, or a returned value; each case also reports the
active figure afterwards. -/
inductive EntryCallResult where
  | typeErr (gcfAfter : Fig)
  | raised (e : PyError) (gcfAfter : Fig)
  | ret (v : PyVal) (gcfAfter : Fig)

/-- The structured payload the worker prints as its final stdout line
(main.py:305). -/
structure Payload where
  png : Option String
  svg : Option String
  logs : String
  error : Option String
  deriving DecidableEq

/-- Environment of one worker execution. -/
structure WorkerEnv where
  /-- Outcome of `exec(compile(user_code, ...), namespace)` (main.py:316). -/
  execOutcome : Except PyError Unit
  /-- Contents of `log_stream` (redirected stdout/stderr of the user code). -/
  capturedLog : String
  /-- `_pylab_helpers.Gcf.get_all_fig_managers()` figures, in order (main.py:318). -/
  managers : List Fig
  /-- `plt.gcf()` after user-code execution (main.py:319). -/
  gcf : Fig
  /-- `namespace.get(name)` restricted to callables: `none` when the name is
  missing or not callable (main.py:331-332). -/
  lookup : String → Option (Fig → EntryCallResult)
  /-- `traceback.format_exc()` for a given exception (main.py:418). -/
  formatTb : PyError → String
  /-- `textwrap.fill(msg, width=88, ...)` (main.py:429). -/
  wrapFill : String → String
  /-- `(pixel_std, center_std)` of the drawn canvas: channel-intensity
  standard deviation over the full canvas and over the central region
  spanning the middle 60 percent of width and height (main.py:392-399). -/
  stats : Fig → Rat × Rat
  /-- Base64 PNG encoding of the rendered figure (main.py:401-403). -/
  encodePng : Fig → String
  /-- Base64 SVG encoding of the rendered figure (main.py:406-408). -/
  encodeSvg : Fig → String

/-- The fixed, ordered entry-point candidate list (main.py:321-329). -/
def entryPoints : List String :=
  ["create_plot", "create_figure", "create_replication", "build_plot",
   "build_figure", "generate_plot", "main"]

/-- Inner scan of a returned list/tuple: adopt the first element exposing
non-empty drawable contents (main.py:343-346). -/
def scanSeq : List PyVal → Option Fig
  | [] => none
  | .figLike f :: rest => if f.axes.isEmpty then scanSeq rest else some f
  | _ :: rest => scanSeq rest

/-- The entry-point search loop (main.py:330-351).  State: the current
`fig` binding and the current `plt.gcf()`.  Returns the pair after the
loop breaks or exhausts, or the exception a candidate call propagated. -/
def entryLoop (env : WorkerEnv) : List String → Fig → Fig → Except PyError (Fig × Fig)
  | [], fig, gcf => .ok (fig, gcf)
  | name :: rest, fig, gcf =>
    match env.lookup name with
    | none => entryLoop env rest fig gcf
    | some callFn =>
      match callFn gcf with
      | .typeErr g2 => entryLoop env rest fig g2
      | .raised e _ => .error e
      | .ret v g2 =>
        match v with
        | .figLike f =>
          if f.axes.isEmpty then
            if g2.axes.isEmpty then entryLoop env rest g2 g2 else .ok (g2, g2)
          else .ok (f, g2)
        | .seq items =>
          match scanSeq items with
          | some f => .ok (f, g2)
          | none =>
            if fig.axes.isEmpty then
              if g2.axes.isEmpty then entryLoop env rest g2 g2 else .ok (g2, g2)
            else .ok (fig, g2)
        | _ =>
          if g2.axes.isEmpty then entryLoop env rest g2 g2 else .ok (g2, g2)

/-- `managers[-1].canvas.figure if managers else plt.gcf()` (main.py:319). -/
def initialFig (env : WorkerEnv) : Fig := (env.managers.getLast?).getD env.gcf

/-- The hidden-axis panel carrying the "No plot was generated" text
(main.py:354-356); its formatters are matplotlib defaults, not callbacks. -/
def noPlotAxis : AxisSlots :=
  { xMajor := (.other, []), xMinor := (.other, []), yMajor := (.other, []),
    yMinor := (.other, []), axisOff := true, texts := ["No plot was generated"] }

/-- `fig.add_subplot(111)` plus hidden axis and placeholder text
(main.py:353-356). -/
def addNoPlotAxis (f : Fig) : Fig := { axes := f.axes ++ [noPlotAxis] }

/-- The figure the worker finally renders on the success path: initial
figure, entry-point discovery when it has no panels (main.py:320-351),
and the "No plot was generated" placeholder when still empty
(main.py:353-356). -/
def figureAfterDiscovery (env : WorkerEnv) : Except PyError Fig :=
  match (if (initialFig env).axes.isEmpty
         then entryLoop env entryPoints (initialFig env) env.gcf
         else .ok (initialFig env, env.gcf)) with
  | .error e => .error e
  | .ok fg => .ok (if fg.1.axes.isEmpty then addNoPlotAxis fg.1 else fg.1)

/-! ### Formatter containment (main.py:360-387)

Every `FuncFormatter` on every axis is replaced by a wrapped version:
the callback is guarded, a failing label becomes the empty string, and
only the first failure (across all wrapped formatters, which share one
`formatter_errors` list) is recorded.  The wrap-then-draw steps are
modelled together: `safeFormat` is the wrapped callback `_safe`
(main.py:367-378) with the shared error list passed explicitly. -/

/-- The suppressed-error log line (main.py:372-377). -/
def errLine (e : PyError) : String :=
  "FORMATTER_ERROR suppressed: " ++ e.name ++ ": " ++ e.msg

/-- `_safe(value)` (main.py:367-378): returns the label and the updated
shared error list. -/
def safeFormat (original : Rat → Except PyError String) (errs : List String)
    (v : Rat) : String × List String :=
  match original v with
  | .ok s => (s, errs)
  | .error exc => ("", if errs.isEmpty then [errLine exc] else errs)

/-- Format every tick of one wrapped callback in draw order. -/
def formatTicks (original : Rat → Except PyError String) :
    List Rat → List String → List String × List String
  | [], errs => ([], errs)
  | v :: rest, errs =>
    let r1 := safeFormat original errs v
    let r2 := formatTicks original rest r1.2
    (r1.1 :: r2.1, r2.2)

/-- Draw-time formatting of one formatter slot: only `FuncFormatter`
slots run wrapped callbacks; other formatter kinds contribute nothing to
the shared error list. -/
def runFormatter : Formatter → List Rat → List String → List String × List String
  | .func cb, ticks, errs => formatTicks cb ticks errs
  | .other, _, errs => ([], errs)

/-- The four formatter slots of an axis, in the order they are wrapped
(main.py:384-387). -/
def axSlots (ax : AxisSlots) : List (Formatter × List Rat) :=
  [ax.xMajor, ax.xMinor, ax.yMajor, ax.yMinor]

/-- Draw-time error accumulation over one axis. -/
def drawAxis (ax : AxisSlots) (errs : List String) : List String :=
  (axSlots ax).foldl (fun acc s => (runFormatter s.1 s.2 acc).2) errs

/-- Draw-time error accumulation over the whole figure (`canvas.draw()`,
main.py:391): the `formatter_errors` list after the draw. -/
def drawFig (f : Fig) : List String :=
  f.axes.foldl (fun acc ax => drawAxis ax acc) []

/-- First failing tick of one callback, in draw order. -/
def firstFail (original : Rat → Except PyError String) : List Rat → Option PyError
  | [] => none
  | v :: rest =>
    match original v with
    | .error e => some e
    | .ok _ => firstFail original rest

/-- First component for which `g` yields an error. -/
def collectFirst (g : α → Option PyError) : List α → Option PyError
  | [] => none
  | a :: r => match g a with | some e => some e | none => collectFirst g r

def slotFirstFail : Formatter × List Rat → Option PyError
  | (.func cb, ticks) => firstFail cb ticks
  | (.other, _) => none

def axisFirstFail (ax : AxisSlots) : Option PyError :=
  collectFirst slotFirstFail (axSlots ax)

/-- The first formatter failure of the whole figure, in draw order. -/
def figFirstFail (f : Fig) : Option PyError :=
  collectFirst axisFirstFail f.axes

/-! ### Payload assembly -/

/-- The hidden-axis placeholder figure built on the execution-error path
(main.py:422-440), carrying the wrapped trace message as its text. -/
def placeholderFig (msg : String) : Fig :=
  { axes := [{ xMajor := (.other, []), xMinor := (.other, []), yMajor := (.other, []),
               yMinor := (.other, []), axisOff := true, texts := [msg] }] }

/-- Lines of a text (Python `str.splitlines` restricted to LF endings). -/
def splitLines (s : String) : List String := (splitLF s.data).map String.mk

/-- The last `n` elements of a list (Python `l[-n:]`). -/
def lastN (n : Nat) (l : List α) : List α := l.drop (l.length - n)

/-- The placeholder message: header, blank line, then the final 18 lines
of the stripped trace, word-wrapped at width 88 (main.py:425-429). -/
def errorMessage (env : WorkerEnv) (e : PyError) : String :=
  env.wrapFill ("EXECUTION_ERROR (rendered placeholder)" ++ "\n\n" ++
    String.intercalate "\n" (lastN 18 (splitLines (pyStrip (env.formatTb e)))))

/-- The `except Exception` branch (main.py:416-443). -/
def errorPayload (env : WorkerEnv) (e : PyError) : Payload :=
  { png := some (env.encodePng (placeholderFig (errorMessage env e))),
    svg := none,
    logs := env.capturedLog ++ "\n" ++ env.formatTb e,
    error := some "EXECUTION_ERROR" }

/-- Payload state at the end of the try body on the success path
(main.py:389-415): png and svg are set; a near-blank render additionally
sets the BLANK_PLOT tag and assigns a log text carrying the
BLANK_PLOT_DETECTED diagnostic with both statistics (main.py:410-415);
otherwise the initial `payload["logs"] = ""` (main.py:305) is untouched.
This log value is transient: the try-statement's `else` clause
overwrites it (see `successPayload`). -/
def tryBodyPayload (env : WorkerEnv) (fig : Fig) : Payload :=
  if (env.stats fig).1 < 2 ∨ (env.stats fig).2 < 2 then
    { png := some (env.encodePng fig), svg := some (env.encodeSvg fig),
      logs := (if (drawFig fig).isEmpty then env.capturedLog
               else env.capturedLog ++ "\n" ++ (drawFig fig).headD "") ++
        ("\nBLANK_PLOT_DETECTED pixel_std=" ++ fixed4 (env.stats fig).1 ++
          " center_std=" ++ fixed4 (env.stats fig).2),
      error := some "BLANK_PLOT" }
  else
    { png := some (env.encodePng fig), svg := some (env.encodeSvg fig),
      logs := "", error := none }

/-- The try-statement's `else` clause (main.py:444-445).  `else:` at
main.py:444 is indented at the level of `try:`/`except Exception:`, so
Python runs it whenever the try suite completes without raising — on the
blank-plot path too — and it assigns `payload["logs"]` unconditionally,
replacing whatever the try body wrote there. -/
def elseClauseLogs (env : WorkerEnv) (errs : List String) : String :=
  env.capturedLog ++ (if errs.isEmpty then "" else "\n" ++ errs.headD "")

/-- The final payload of a non-raising run: the try body's fields with
the log text overwritten by the `else` clause (main.py:389-415 then
444-445).  In particular the BLANK_PLOT_DETECTED diagnostic written at
main.py:415 never survives to the printed payload. -/
def successPayload (env : WorkerEnv) (fig : Fig) : Payload :=
  { tryBodyPayload env fig with logs := elseClauseLogs env (drawFig fig) }

/-- Combined outcome of user-code execution and figure discovery: the
`except Exception` handler catches exceptions from both (main.py:308-416). -/
def runOutcomeFig (env : WorkerEnv) : Except PyError Fig :=
  match env.execOutcome with
  | .error e => .error e
  | .ok _ => figureAfterDiscovery env

/-- The payload the worker prints as its final stdout line (main.py:302-447). -/
def workerPayload (env : WorkerEnv) : Payload :=
  match runOutcomeFig env with
  | .error e => errorPayload env e
  | .ok fig => successPayload env fig

/-- The whole worker body: the printed payload and the exit status
(`sys.exit(0 if payload["error"] is None else 1)`, main.py:448). -/
def runWorker (env : WorkerEnv) : Payload × Nat :=
  (workerPayload env, if (workerPayload env).error = none then 0 else 1)

/-! ## Result extraction (`_run_worker_script`, main.py:453-491)

The post-process part of `_run_worker_script`: trim the captured
streams, fail on empty stdout, decode the final stdout line, and
assemble the log text.  JSON decoding of the final line is a parameter
(`decode`); a decoded payload mirrors `payload.get(...)` access with
optional fields. -/

/-- A decoded final-line payload, with every field optional as under
`dict.get` (main.py:487-491). -/
structure DecodedPayload where
  png : Option String
  svg : Option String
  logs : Option String
  error : Option String
  deriving DecidableEq

/-- `stdout.splitlines()[-1]` of the stripped stdout (main.py:476,481). -/
def lastLine (s : String) : String := (splitLines (pyStrip s)).getLastD ""

/-- `if stderr: logs = logs + ("\n" if logs else "") + stderr`
(main.py:488-489). -/
def appendErrStream (logs se : String) : String :=
  if se = "" then logs else logs ++ (if logs = "" then "" else "\n") ++ se

/-- Result extraction (main.py:476-491): `.error` models the raised
`RuntimeError` (its message embedding stderr, resp. the offending line). -/
def extractResult (decode : String → Option DecodedPayload)
    (stdout stderr : String) : Except String Payload :=
  if pyStrip stdout = "" then
    .error ("Renderer produced no output. stderr=" ++ pyStrip stderr)
  else
    match decode (lastLine stdout) with
    | none => .error ("Invalid renderer payload: " ++ lastLine stdout)
    | some p =>
      .ok { png := p.png, svg := p.svg,
            logs := appendErrStream (p.logs.getD "") (pyStrip stderr),
            error := p.error }

/-! ## The request pipeline (`render_plot`, main.py:214-241)

Modelled with an explicit environment (the fresh uuid4 value, the
interpreter resolution, the child-process behaviour, JSON decoding) and
an event trace recording, in order: uuid generation (main.py:221),
worker-script synthesis (main.py:222), scratch-directory creation,
process spawn and scratch-directory removal (main.py:459-474, the
`TemporaryDirectory` context manager releases the directory on every
exit path including `TimeoutExpired`), and artifact persistence
(main.py:233, `_persist_artifacts`). -/

/-- Raw child-process outcome: `subprocess.run` either raises
`TimeoutExpired` or completes with captured streams (main.py:468-474). -/
inductive RunOutcome where
  | timeoutExpired
  | completed (stdout stderr : String)

/-- Environment of one request. -/
structure ServerEnv where
  /-- `uuid.uuid4().hex` for this request (main.py:221). -/
  freshId : String
  /-- Did `_resolve_python_binary` find an interpreter (main.py:244-252)? -/
  interpOk : Bool
  /-- Behaviour of the spawned child on a given worker script. -/
  run : String → RunOutcome
  /-- `json.loads` on the final stdout line (main.py:483). -/
  decode : String → Option DecodedPayload

/-- Failure of `_run_worker_script` as seen by `render_plot`'s handlers
(main.py:226-231). -/
inductive WorkerErr where
  | timedOut
  | noInterp
  | extractFail (msg : String)
  deriving DecidableEq

/-- Pipeline events, in occurrence order. -/
inductive Ev where
  | uuidGen (id : String)
  | buildScript (text : String)
  | scratchMade
  | spawn (script : String)
  | scratchGone
  | persist (id : String) (script : String) (png : Option String) (logs : String)
  deriving DecidableEq

/-- `_run_worker_script(script, timeout)` (main.py:453-491): interpreter
resolution, scratch-directory lifecycle, spawn, then extraction (which
happens after the scratch directory is already released). -/
def runWorkerScript (env : ServerEnv) (script : String) :
    Except WorkerErr Payload × List Ev :=
  if env.interpOk then
    match env.run script with
    | .timeoutExpired => (.error .timedOut, [.scratchMade, .spawn script, .scratchGone])
    | .completed out err =>
      (match extractResult env.decode out err with
       | .error m => .error (.extractFail m)
       | .ok p => .ok p,
       [.scratchMade, .spawn script, .scratchGone])
  else (.error .noInterp, [])

/-- HTTP-level failure raised by `render_plot` (main.py:219, 227, 229, 231). -/
inductive HTTPFail where
  | unprocessable (detail : String)
  | gatewayTimeout (detail : String)
  | internalError (detail : String)
  deriving DecidableEq

/-- The caller-facing result (main.py:66-72, 235-241). -/
structure RenderResponse where
  base64Png : Option String
  base64Svg : Option String
  logs : String
  error : Option String
  artifactId : String
  deriving DecidableEq

/-- The events every non-rejected request performs before its outcome is
known: uuid generation (main.py:221), synthesis (main.py:222), then the
runner's scratch/spawn events (main.py:225). -/
def baseTrace (env : ServerEnv) (req : RenderRequest) : List Ev :=
  Ev.uuidGen env.freshId :: Ev.buildScript (buildWorkerScript req) ::
    (runWorkerScript env (buildWorkerScript req)).2

/-- `render_plot(request)` (main.py:214-241): reject blank submissions,
generate the artifact id, synthesize the worker script, run it, then
persist artifacts and answer. -/
def renderPlot (env : ServerEnv) (req : RenderRequest) :
    Except HTTPFail RenderResponse × List Ev :=
  if pyStrip req.code = "" then
    (.error (.unprocessable "Submitted code is empty."), [])
  else
    match (runWorkerScript env (buildWorkerScript req)).1 with
    | .error .timedOut =>
      (.error (.gatewayTimeout "Renderer timed out."), baseTrace env req)
    | .error .noInterp =>
      (.error (.internalError "Python interpreter not available."), baseTrace env req)
    | .error (.extractFail m) => (.error (.internalError m), baseTrace env req)
    | .ok p =>
      (.ok { base64Png := p.png, base64Svg := p.svg, logs := p.logs,
             error := p.error, artifactId := env.freshId },
       baseTrace env req ++
         [.persist env.freshId (buildWorkerScript req) p.png p.logs])

/-- The program texts written by `_persist_artifacts` along a trace. -/
def archivedScripts : List Ev → List String
  | [] => []
  | .persist _ s _ _ :: r => s :: archivedScripts r
  | _ :: r => archivedScripts r

/-! ## Supporting lemmas: the shared formatter-error list -/

/-- The error-list contents an optional first failure corresponds to. -/
def optErrList : Option PyError → List String
  | none => []
  | some e => [errLine e]

theorem formatTicks_errs (cb : Rat → Except PyError String) (ticks : List Rat) :
    ∀ errs : List String,
      (formatTicks cb ticks errs).2 =
        if errs.isEmpty then optErrList (firstFail cb ticks) else errs := by
  induction ticks with
  | nil => intro errs; cases errs <;> rfl
  | cons v rest ih =>
    intro errs
    cases hcb : cb v with
    | ok s =>
      simp only [formatTicks, safeFormat, hcb, firstFail]
      exact ih errs
    | error e =>
      cases errs with
      | nil =>
        simp only [formatTicks, safeFormat, hcb, firstFail, List.isEmpty_nil, if_true]
        rw [ih [errLine e]]
        rfl
      | cons x xs =>
        simp only [formatTicks, safeFormat, hcb, firstFail, List.isEmpty_cons]
        rw [if_neg (by simp)]
        rw [ih (x :: xs)]
        simp

theorem runFormatter_errs (sl : Formatter × List Rat) (errs : List String) :
    (runFormatter sl.1 sl.2 errs).2 =
      if errs.isEmpty then optErrList (slotFirstFail sl) else errs := by
  obtain ⟨f, ticks⟩ := sl
  cases f with
  | func cb => exact formatTicks_errs cb ticks errs
  | other => cases errs <;> rfl

theorem foldl_absorb (g : α → Option PyError) (step : List String → α → List String)
    (hstep : ∀ errs a, step errs a = if errs.isEmpty then optErrList (g a) else errs) :
    ∀ (l : List α) (errs : List String),
      l.foldl step errs = if errs.isEmpty then optErrList (collectFirst g l) else errs := by
  intro l
  induction l with
  | nil => intro errs; cases errs <;> rfl
  | cons a r ih =>
    intro errs
    rw [List.foldl_cons, hstep]
    cases errs with
    | nil =>
      simp only [List.isEmpty_nil, if_true]
      cases hga : g a with
      | none =>
        show List.foldl step [] r = _
        rw [ih []]
        simp only [List.isEmpty_nil, if_true]
        congr 1
        simp [collectFirst, hga]
      | some e =>
        show List.foldl step [errLine e] r = _
        rw [ih [errLine e]]
        simp [collectFirst, hga, optErrList]
    | cons x xs =>
      simp only [List.isEmpty_cons, if_neg (by simp : ¬(false = true))]
      rw [ih (x :: xs)]
      simp

theorem drawAxis_errs (ax : AxisSlots) (errs : List String) :
    drawAxis ax errs = if errs.isEmpty then optErrList (axisFirstFail ax) else errs := by
  unfold drawAxis axisFirstFail
  exact foldl_absorb slotFirstFail _ (fun errs s => runFormatter_errs s errs) (axSlots ax) errs

/-- `formatter_errors` after `canvas.draw()` holds exactly the line of the
first failing callback invocation, or nothing if none failed. -/
theorem drawFig_errs (f : Fig) : drawFig f = optErrList (figFirstFail f) := by
  unfold drawFig figFirstFail
  rw [foldl_absorb axisFirstFail _ (fun errs ax => drawAxis_errs ax errs) f.axes []]
  rfl

/-- The needle occurs in `a ++ t` whenever it occurs in `t`. -/
theorem strHasSub_append_left (a n t : String) (h : strHasSub n t = true) :
    strHasSub n (a ++ t) = true := by
  unfold strHasSub at h ⊢
  rw [strData_append]
  exact subSeqAt_append_left _ _ _ h

/-- Concrete failing input for C1: a script that runs, draws nothing
(discovery falls through to the "No plot was generated" placeholder)
and renders an all-uniform canvas with zero deviation. -/
def envC1 : WorkerEnv :=
  { execOutcome := .ok (), capturedLog := "stdout of the script",
    managers := [], gcf := ⟨[]⟩,
    lookup := fun _ => none,
    formatTb := fun e => e.name ++ ": " ++ e.msg,
    wrapFill := id,
    stats := fun _ => (0, 0),
    encodePng := fun _ => "PNGDATA1",
    encodeSvg := fun _ => "SVGDATA1" }

/-- C1 (code bug).  At a concrete blank render — the script executes
without raising, draws nothing (discovery falls through to the "No plot
was generated" placeholder) and the canvas statistics are zero, i.e.
below the 2.0 threshold on both regions — the worker classifies the
outcome BLANK_PLOT and the raster image field is still present, but the
final payload's log text is the captured output alone and does not
contain the BLANK_PLOT_DETECTED diagnostic: the try-statement's `else`
clause (main.py:444-445) overwrites the log text assigned at
main.py:415, so the diagnostic line with the two standard-deviation
statistics never reaches the printed payload, contrary to the claim. -/
theorem blank_plot_log_clobbered :
    (runWorker envC1).1.error = some "BLANK_PLOT" ∧
    (runWorker envC1).1.png = some (envC1.encodePng (addNoPlotAxis ⟨[]⟩)) ∧
    (runWorker envC1).1.logs = envC1.capturedLog ∧
    strHasSub "BLANK_PLOT_DETECTED" ((runWorker envC1).1.logs) = false := by
  have hro : runOutcomeFig envC1 = .ok (addNoPlotAxis ⟨[]⟩) := rfl
  have hP : (runWorker envC1).1 = successPayload envC1 (addNoPlotAxis ⟨[]⟩) := by
    rw [runWorker]; simp only [workerPayload, hro]
  have hb : (envC1.stats (addNoPlotAxis ⟨[]⟩)).1 < 2 ∨
      (envC1.stats (addNoPlotAxis ⟨[]⟩)).2 < 2 :=
    Or.inl (by show (0 : Rat) < 2; norm_num)
  have hlogs : (successPayload envC1 (addNoPlotAxis ⟨[]⟩)).logs =
      envC1.capturedLog := by
    show elseClauseLogs envC1 (drawFig (addNoPlotAxis ⟨[]⟩)) = _
    rfl
  refine ⟨?_, ?_, ?_, ?_⟩
  · rw [hP]
    show (tryBodyPayload envC1 (addNoPlotAxis ⟨[]⟩)).error = _
    rw [tryBodyPayload, if_pos hb]
  · rw [hP]
    show (tryBodyPayload envC1 (addNoPlotAxis ⟨[]⟩)).png = _
    rw [tryBodyPayload, if_pos hb]
  · rw [hP]; exact hlogs
  · rw [hP, hlogs]
    decide

/-- C2.  For every script whose execution raises an exception, the
payload's outcome classification is EXECUTION_ERROR, the raster image
field is present and is the encoding of a freshly built hidden-axis
placeholder figure rendering the final 18 lines of the formatted trace,
word-wrapped at width 88 under a header, the vector image field is
absent, and the log text is the captured stdout/stderr followed by the
trace (hence, whenever the formatted trace carries the exception's kind
and message, so does the log text). -/
theorem execution_error_fallback (env : WorkerEnv) (e : PyError)
    (hexec : env.execOutcome = .error e)
    (htb : strHasSub (e.name ++ ": " ++ e.msg) (env.formatTb e) = true) :
    (runWorker env).1.error = some "EXECUTION_ERROR" ∧
    (runWorker env).1.png =
      some (env.encodePng (placeholderFig (errorMessage env e))) ∧
    (runWorker env).1.svg = none ∧
    (runWorker env).1.logs = env.capturedLog ++ "\n" ++ env.formatTb e ∧
    strHasSub (e.name ++ ": " ++ e.msg) ((runWorker env).1.logs) = true := by
  have hro : runOutcomeFig env = .error e := by rw [runOutcomeFig, hexec]
  have hP : (runWorker env).1 = errorPayload env e := by
    rw [runWorker]; simp only [workerPayload, hro]
  rw [hP]
  refine ⟨rfl, rfl, rfl, rfl, ?_⟩
  show strHasSub _ (env.capturedLog ++ "\n" ++ env.formatTb e) = true
  exact strHasSub_append_left _ _ _ htb

/-- Concrete environment for the C2 witness: a script raising
ValueError, with a traceback in Python's format. -/
def envC2 : WorkerEnv :=
  { execOutcome := .error ⟨"ValueError", "bad shape"⟩,
    capturedLog := "partial stdout",
    managers := [], gcf := ⟨[]⟩,
    lookup := fun _ => none,
    formatTb := fun e =>
      "Traceback (most recent call last):\n  File \"student_code.py\", line 1, in <module>\n" ++
        e.name ++ ": " ++ e.msg,
    wrapFill := id,
    stats := fun _ => (0, 0),
    encodePng := fun _ => "PNGDATA2",
    encodeSvg := fun _ => "SVGDATA2" }

theorem execution_error_fallback_witness :
    (runWorker envC2).1.error = some "EXECUTION_ERROR" ∧
    (runWorker envC2).1.png =
      some (envC2.encodePng (placeholderFig
        (errorMessage envC2 ⟨"ValueError", "bad shape"⟩))) ∧
    (runWorker envC2).1.svg = none ∧
    (runWorker envC2).1.logs =
      envC2.capturedLog ++ "\n" ++
        envC2.formatTb ⟨"ValueError", "bad shape"⟩ ∧
    strHasSub ("ValueError" ++ ": " ++ "bad shape") ((runWorker envC2).1.logs) = true :=
  execution_error_fallback envC2 ⟨"ValueError", "bad shape"⟩ rfl (by decide)

/-- C3.  For every script that installs a callback-style tick-label
formatter raising during label computation (the finalized figure has a
first failing wrapped-callback invocation), the run still completes with
outcome classification absent or BLANK_PLOT (never EXECUTION_ERROR), the
shared error list after the draw holds exactly one suppressed-formatter
line (the first exception's kind and message) no matter how many tick
values fail across the wrapped axes formatters, that line occurs in the
log text, and every failing label is replaced by the empty string. -/
theorem formatter_containment (env : WorkerEnv) (fig : Fig) (e : PyError)
    (hexec : env.execOutcome = .ok ())
    (hfig : figureAfterDiscovery env = .ok fig)
    (hfail : figFirstFail fig = some e) :
    ((runWorker env).1.error = none ∨ (runWorker env).1.error = some "BLANK_PLOT") ∧
    drawFig fig = [errLine e] ∧
    strHasSub (errLine e) ((runWorker env).1.logs) = true ∧
    (∀ (cb : Rat → Except PyError String) (errs : List String) (v : Rat)
      (e2 : PyError), cb v = .error e2 → (safeFormat cb errs v).1 = "") := by
  have hro : runOutcomeFig env = .ok fig := by
    rw [runOutcomeFig, hexec]; exact hfig
  have hP : (runWorker env).1 = successPayload env fig := by
    rw [runWorker]; simp only [workerPayload, hro]
  have hdraw : drawFig fig = [errLine e] := by
    rw [drawFig_errs, hfail]; rfl
  have hsafe : ∀ (cb : Rat → Except PyError String) (errs : List String)
      (v : Rat) (e2 : PyError), cb v = .error e2 → (safeFormat cb errs v).1 = "" := by
    intro cb errs v e2 hcb
    simp [safeFormat, hcb]
  have herr : (successPayload env fig).error = none ∨
      (successPayload env fig).error = some "BLANK_PLOT" := by
    show (tryBodyPayload env fig).error = none ∨
      (tryBodyPayload env fig).error = some "BLANK_PLOT"
    by_cases hb : (env.stats fig).1 < 2 ∨ (env.stats fig).2 < 2
    · exact Or.inr (by rw [tryBodyPayload, if_pos hb])
    · exact Or.inl (by rw [tryBodyPayload, if_neg hb])
  have hlogs : (successPayload env fig).logs =
      env.capturedLog ++ ("\n" ++ errLine e) := by
    show elseClauseLogs env (drawFig fig) = _
    rw [hdraw]; rfl
  refine ⟨?_, hdraw, ?_, hsafe⟩
  · rw [hP]; exact herr
  · rw [hP, hlogs, ← strAppend_assoc]
    exact strHasSub_end _ _

/-- A tick callback that always raises, for the C3 witness. -/
def badCb : Rat → Except PyError String :=
  fun _ => .error ⟨"ValueError", "cannot convert float NaN to integer"⟩

/-- A figure whose x-major formatter is a failing callback fed two ticks
(so two invocations fail), for the C3 witness. -/
def figC3 : Fig :=
  ⟨[{ xMajor := (.func badCb, [0, 1]), xMinor := (.other, []),
      yMajor := (.other, []), yMinor := (.other, []),
      axisOff := false, texts := [] }]⟩

def envC3 : WorkerEnv :=
  { execOutcome := .ok (), capturedLog := "",
    managers := [figC3], gcf := figC3,
    lookup := fun _ => none,
    formatTb := fun e => e.name ++ ": " ++ e.msg,
    wrapFill := id,
    stats := fun _ => (5, 5),
    encodePng := fun _ => "PNGDATA3",
    encodeSvg := fun _ => "SVGDATA3" }

theorem formatter_containment_witness :
    ((runWorker envC3).1.error = none ∨ (runWorker envC3).1.error = some "BLANK_PLOT") ∧
    drawFig figC3 =
      [errLine ⟨"ValueError", "cannot convert float NaN to integer"⟩] ∧
    strHasSub (errLine ⟨"ValueError", "cannot convert float NaN to integer"⟩)
      ((runWorker envC3).1.logs) = true ∧
    (∀ (cb : Rat → Except PyError String) (errs : List String) (v : Rat)
      (e2 : PyError), cb v = .error e2 → (safeFormat cb errs v).1 = "") :=
  formatter_containment envC3 figC3
    ⟨"ValueError", "cannot convert float NaN to integer"⟩ rfl rfl rfl

/-- Candidates that are not callable are skipped, and a candidate whose
zero-argument invocation raises `TypeError` without touching the active
figure is treated as try-next: the loop state passes through unchanged. -/
theorem entryLoop_skip (env : WorkerEnv) (ns rest : List String) (fig gcf : Fig)
    (h : ∀ n ∈ ns, env.lookup n = none ∨
         ∃ cf, env.lookup n = some cf ∧ ∀ g, cf g = .typeErr g) :
    entryLoop env (ns ++ rest) fig gcf = entryLoop env rest fig gcf := by
  induction ns generalizing gcf with
  | nil => rfl
  | cons n ns ih =>
    rcases h n (List.mem_cons_self n ns) with hl | ⟨cf, hl, hcf⟩
    · rw [List.cons_append]
      simp only [entryLoop, hl]
      exact ih _ (fun m hm => h m (List.mem_cons_of_mem n hm))
    · rw [List.cons_append]
      simp only [entryLoop, hl, hcf gcf]
      exact ih _ (fun m hm => h m (List.mem_cons_of_mem n hm))

/-- C7.  For every script that makes no top-level drawing calls (the
active figure has no drawable panels after execution) but defines a
zero-argument callable named "main" returning a figure with non-empty
drawable contents — the candidates ahead of "main" in the fixed ordered
list being absent, non-callable, or failing with a parameter-count
mismatch — the entry-point search adopts that figure, and the request
yields outcome classification absent with that figure's contents
rendered (provided the populated figure renders non-uniformly, i.e. both
canvas statistics reach the blank threshold). -/
theorem entry_point_fallback (env : WorkerEnv) (callFn : Fig → EntryCallResult)
    (f g2 : Fig) (p c : Rat)
    (hexec : env.execOutcome = .ok ())
    (h0 : (initialFig env).axes = [])
    (hpre : ∀ n ∈ ["create_plot", "create_figure", "create_replication",
                   "build_plot", "build_figure", "generate_plot"],
      env.lookup n = none ∨
      ∃ cf, env.lookup n = some cf ∧ ∀ g, cf g = .typeErr g)
    (hmain : env.lookup "main" = some callFn)
    (hcall : callFn env.gcf = .ret (.figLike f) g2)
    (hax : f.axes ≠ [])
    (hstats : env.stats f = (p, c)) (hp : 2 ≤ p) (hc : 2 ≤ c) :
    figureAfterDiscovery env = .ok f ∧
    (runWorker env).1.error = none ∧
    (runWorker env).1.png = some (env.encodePng f) ∧
    (runWorker env).1.svg = some (env.encodeSvg f) := by
  have hne : f.axes.isEmpty = false := by
    cases hfa : f.axes with
    | nil => exact absurd hfa hax
    | cons a l => rfl
  have hloop : entryLoop env entryPoints (initialFig env) env.gcf = .ok (f, g2) := by
    have hsplit : entryPoints =
        ["create_plot", "create_figure", "create_replication", "build_plot",
         "build_figure", "generate_plot"] ++ ["main"] := rfl
    rw [hsplit, entryLoop_skip env _ _ _ _ hpre]
    simp only [entryLoop, hmain, hcall, hne]
    rfl
  have hfig : figureAfterDiscovery env = .ok f := by
    rw [figureAfterDiscovery]
    rw [if_pos (by rw [h0]; rfl)]
    rw [hloop]
    simp only [hne]
    rfl
  have hro : runOutcomeFig env = .ok f := by
    rw [runOutcomeFig, hexec]; exact hfig
  have hP : (runWorker env).1 = successPayload env f := by
    rw [runWorker]; simp only [workerPayload, hro]
  have hnb : ¬((env.stats f).1 < 2 ∨ (env.stats f).2 < 2) := by
    rw [hstats]
    push_neg
    exact ⟨hp, hc⟩
  refine ⟨hfig, ?_, ?_, ?_⟩
  · rw [hP]
    show (tryBodyPayload env f).error = none
    rw [tryBodyPayload, if_neg hnb]
  · rw [hP]
    show (tryBodyPayload env f).png = some (env.encodePng f)
    rw [tryBodyPayload, if_neg hnb]
  · rw [hP]
    show (tryBodyPayload env f).svg = some (env.encodeSvg f)
    rw [tryBodyPayload, if_neg hnb]

/-- The populated figure returned by `main` in the C7 witness. -/
def figMain : Fig :=
  ⟨[{ xMajor := (.other, []), xMinor := (.other, []),
      yMajor := (.other, []), yMinor := (.other, []),
      axisOff := false, texts := [] }]⟩

/-- Concrete environment for the C7 witness: no top-level drawing, only
"main" defined, returning the populated `figMain`. -/
def envC7 : WorkerEnv :=
  { execOutcome := .ok (), capturedLog := "",
    managers := [], gcf := ⟨[]⟩,
    lookup := fun n =>
      if n = "main" then some (fun g => .ret (.figLike figMain) g) else none,
    formatTb := fun e => e.name,
    wrapFill := id,
    stats := fun _ => (3, 3),
    encodePng := fun _ => "PNGDATA7",
    encodeSvg := fun _ => "SVGDATA7" }

theorem entry_point_fallback_witness :
    figureAfterDiscovery envC7 = .ok figMain ∧
    (runWorker envC7).1.error = none ∧
    (runWorker envC7).1.png = some (envC7.encodePng figMain) ∧
    (runWorker envC7).1.svg = some (envC7.encodeSvg figMain) :=
  entry_point_fallback envC7 (fun g => .ret (.figLike figMain) g)
    figMain ⟨[]⟩ 3 3 rfl rfl
    (by intro n hn; fin_cases hn <;> exact Or.inl rfl)
    rfl rfl (List.cons_ne_nil _ _) rfl (by norm_num) (by norm_num)

/-- C4.  Result extraction fails with a fatal error if and only if the
captured stdout is empty after trimming or the final stdout line fails
to decode as structured data; the failure detail embeds the stderr,
respectively the offending line; on success the image fields and outcome
classification are taken from the decoded payload verbatim, and the
returned log text is the payload's log field with any non-empty captured
stderr appended after it. -/
theorem extract_contract (decode : String → Option DecodedPayload)
    (stdout stderr : String) :
    ((∃ m, extractResult decode stdout stderr = .error m) ↔
      (pyStrip stdout = "" ∨ decode (lastLine stdout) = none)) ∧
    (pyStrip stdout = "" →
      extractResult decode stdout stderr =
        .error ("Renderer produced no output. stderr=" ++ pyStrip stderr)) ∧
    (pyStrip stdout ≠ "" → decode (lastLine stdout) = none →
      extractResult decode stdout stderr =
        .error ("Invalid renderer payload: " ++ lastLine stdout)) ∧
    (∀ p, pyStrip stdout ≠ "" → decode (lastLine stdout) = some p →
      extractResult decode stdout stderr =
        .ok { png := p.png, svg := p.svg,
              logs := appendErrStream (p.logs.getD "") (pyStrip stderr),
              error := p.error }) := by
  by_cases h1 : pyStrip stdout = ""
  · have he : extractResult decode stdout stderr =
        .error ("Renderer produced no output. stderr=" ++ pyStrip stderr) := by
      rw [extractResult, if_pos h1]
    exact ⟨⟨fun _ => Or.inl h1, fun _ => ⟨_, he⟩⟩, fun _ => he,
      fun h => absurd h1 h, fun p h => absurd h1 h⟩
  · cases h2 : decode (lastLine stdout) with
    | none =>
      have he : extractResult decode stdout stderr =
          .error ("Invalid renderer payload: " ++ lastLine stdout) := by
        rw [extractResult, if_neg h1, h2]
      exact ⟨⟨fun _ => Or.inr rfl, fun _ => ⟨_, he⟩⟩,
        fun h => absurd h h1, fun _ _ => he,
        fun p _ hp => Option.noConfusion hp⟩
    | some p0 =>
      have hk : extractResult decode stdout stderr =
          .ok { png := p0.png, svg := p0.svg,
                logs := appendErrStream (p0.logs.getD "") (pyStrip stderr),
                error := p0.error } := by
        rw [extractResult, if_neg h1, h2]
      refine ⟨⟨?_, ?_⟩, fun h => absurd h h1,
        fun _ h => Option.noConfusion h, fun p _ hp => ?_⟩
      · rintro ⟨m, hm⟩
        rw [hk] at hm
        exact Except.noConfusion hm
      · rintro (h | h)
        · exact absurd h h1
        · exact Option.noConfusion h
      · injection hp with hpp
        subst hpp
        exact hk

/-- Concrete decoder for the C4 witness: accepts exactly one payload
line. -/
def decodeC4 : String → Option DecodedPayload :=
  fun s => if s = "PAYLOADLINE" then
    some { png := some "IMG", svg := none, logs := some "worker log", error := none }
  else none

/-- The payload decoded in the C4 witness. -/
def pC4 : DecodedPayload :=
  { png := some "IMG", svg := none, logs := some "worker log", error := none }

theorem extract_contract_witness :
    extractResult decodeC4 "diagnostic noise\nPAYLOADLINE" "late stderr" =
      .ok { png := pC4.png, svg := pC4.svg,
            logs := appendErrStream (pC4.logs.getD "") (pyStrip "late stderr"),
            error := pC4.error } :=
  (extract_contract decodeC4 "diagnostic noise\nPAYLOADLINE" "late stderr").2.2.2
    pC4 (by decide) (by decide)

/-- C8.  For every render request whose child process exceeds the
configured wall-clock timeout, the caller receives a fatal failure (the
504 gateway-timeout error), no structured RenderResult is ever produced
from the timed-out process, the private scratch directory is removed on
this path, and no artifact directory is archived for the request. -/
theorem render_timeout (env : ServerEnv) (req : RenderRequest)
    (hcode : pyStrip req.code ≠ "")
    (hinterp : env.interpOk = true)
    (hrun : env.run (buildWorkerScript req) = .timeoutExpired) :
    (renderPlot env req).1 = .error (.gatewayTimeout "Renderer timed out.") ∧
    (∀ r, (renderPlot env req).1 ≠ .ok r) ∧
    Ev.scratchGone ∈ (renderPlot env req).2 ∧
    (∀ id s p l, Ev.persist id s p l ∉ (renderPlot env req).2) := by
  have htr : renderPlot env req =
      (.error (.gatewayTimeout "Renderer timed out."),
       [Ev.uuidGen env.freshId, Ev.buildScript (buildWorkerScript req),
        Ev.scratchMade, Ev.spawn (buildWorkerScript req), Ev.scratchGone]) := by
    rw [renderPlot, if_neg hcode]
    simp only [runWorkerScript, hinterp, if_true, hrun, baseTrace]
  rw [htr]
  refine ⟨rfl, fun r h => Except.noConfusion h, by simp, ?_⟩
  intro id s p l h
  simp at h

/-- Concrete environment for the C8 witness: the child always times out. -/
def envC8 : ServerEnv :=
  { freshId := "id8", interpOk := true,
    run := fun _ => .timeoutExpired, decode := fun _ => none }

def reqC8 : RenderRequest :=
  { code := "import time; time.sleep(999)", width := 12, height := 8,
    dpi := 150, timeout := 5 }

theorem render_timeout_witness :
    (renderPlot envC8 reqC8).1 = .error (.gatewayTimeout "Renderer timed out.") ∧
    (∀ r, (renderPlot envC8 reqC8).1 ≠ .ok r) ∧
    Ev.scratchGone ∈ (renderPlot envC8 reqC8).2 ∧
    (∀ id s p l, Ev.persist id s p l ∉ (renderPlot envC8 reqC8).2) :=
  render_timeout envC8 reqC8 (by decide) rfl rfl

/-- C9.  For every submission whose source text is empty after trimming
whitespace, the request is rejected with the 422 validation error before
any worker script is synthesized and before any child process is
spawned: the event trace of the request is empty. -/
theorem empty_code_rejected (env : ServerEnv) (req : RenderRequest)
    (h : pyStrip req.code = "") :
    (renderPlot env req).1 = .error (.unprocessable "Submitted code is empty.") ∧
    (renderPlot env req).2 = [] := by
  rw [renderPlot, if_pos h]
  exact ⟨rfl, rfl⟩

def envC9 : ServerEnv :=
  { freshId := "id9", interpOk := true,
    run := fun _ => .timeoutExpired, decode := fun _ => none }

def reqC9 : RenderRequest :=
  { code := "  \n\t  \n ", width := 12, height := 8, dpi := 150, timeout := 120 }

theorem empty_code_rejected_witness :
    (renderPlot envC9 reqC9).1 = .error (.unprocessable "Submitted code is empty.") ∧
    (renderPlot envC9 reqC9).2 = [] :=
  empty_code_rejected envC9 reqC9 (by decide)

/-! ## Claim C5: where the artifact identifier is assigned

The claim places the fresh-identifier assignment at the
result-extraction point.  In the code the identifier is drawn at
main.py:221, immediately after validation and before
`_build_worker_script` (main.py:222) and `_run_worker_script`
(main.py:225): generation precedes synthesis, spawn and extraction. -/

/-- Concrete environment and request exhibiting the C5 trace. -/
def envC5 : ServerEnv :=
  { freshId := "c0ffee", interpOk := true,
    run := fun _ => .completed "PAYLOADLINE" "",
    decode := fun _ =>
      some { png := some "P5", svg := none, logs := some "L5", error := none } }

def reqC5 : RenderRequest :=
  { code := "plt.plot([1, 2])", width := 1, height := 1, dpi := 50, timeout := 1 }

/-- C5 counterexample.  On a concrete successful request, the
uuid-generation event is the first event of the pipeline trace,
strictly before worker-script synthesis, process spawn and (a fortiori)
result extraction — refuting the claim that the identifier is assigned
at the result-extraction point and not earlier. -/
theorem artifact_id_timing_counterexample :
    (renderPlot envC5 reqC5).2 =
      [Ev.uuidGen "c0ffee", Ev.buildScript (buildWorkerScript reqC5),
       Ev.scratchMade, Ev.spawn (buildWorkerScript reqC5), Ev.scratchGone,
       Ev.persist "c0ffee" (buildWorkerScript reqC5) (some "P5") "L5"] ∧
    (renderPlot envC5 reqC5).2.head? = some (Ev.uuidGen "c0ffee") := by
  constructor <;> rfl

/-- Every successful render's artifact identifier equals the environment's
fresh uuid. -/
theorem renderPlot_ok_id (env : ServerEnv) (req : RenderRequest)
    (r : RenderResponse) (hok : (renderPlot env req).1 = .ok r) :
    r.artifactId = env.freshId := by
  by_cases hc : pyStrip req.code = ""
  · rw [renderPlot, if_pos hc] at hok
    exact Except.noConfusion hok
  · rw [renderPlot, if_neg hc] at hok
    rcases hw : (runWorkerScript env (buildWorkerScript req)).1 with e | p
    · rw [hw] at hok
      cases e <;> exact Except.noConfusion hok
    · rw [hw] at hok
      have := Except.ok.inj hok
      rw [← this]

/-- C5 amended.  The fresh unique artifact identifier carried by every
RenderResult is assigned in `render_plot` immediately after validation —
its generation event heads the pipeline trace, before synthesis and
spawn — and its value is the environment's fresh uuid, independent of
anything the child process produced (any environment with the same uuid
supply yields the same identifier regardless of its child behaviour). -/
theorem artifact_id_assignment (env : ServerEnv) (req : RenderRequest)
    (r : RenderResponse) (hok : (renderPlot env req).1 = .ok r) :
    r.artifactId = env.freshId ∧
    (renderPlot env req).2.head? = some (Ev.uuidGen env.freshId) ∧
    (∀ env2 r2, env2.freshId = env.freshId →
      (renderPlot env2 req).1 = .ok r2 → r2.artifactId = r.artifactId) := by
  have hid := renderPlot_ok_id env req r hok
  have hc : ¬ pyStrip req.code = "" := by
    intro hc
    rw [renderPlot, if_pos hc] at hok
    exact Except.noConfusion hok
  refine ⟨hid, ?_, ?_⟩
  · rw [renderPlot, if_neg hc]
    rcases (runWorkerScript env (buildWorkerScript req)).1 with e | p
    · cases e <;> rfl
    · rfl
  · intro env2 r2 hfid hok2
    rw [renderPlot_ok_id env2 req r2 hok2, hfid, hid]

theorem artifact_id_assignment_witness :
    (RenderResponse.mk (some "P5") none "L5" none "c0ffee").artifactId =
      envC5.freshId ∧
    (renderPlot envC5 reqC5).2.head? = some (Ev.uuidGen envC5.freshId) ∧
    (∀ env2 r2, env2.freshId = envC5.freshId →
      (renderPlot env2 reqC5).1 = .ok r2 →
      r2.artifactId =
        (RenderResponse.mk (some "P5") none "L5" none "c0ffee").artifactId) :=
  artifact_id_assignment envC5 reqC5
    (RenderResponse.mk (some "P5") none "L5" none "c0ffee") rfl

/-! ## Claim C6: determinism of the Synthesizer and archive round-trip -/

theorem archivedScripts_append (a b : List Ev) :
    archivedScripts (a ++ b) = archivedScripts a ++ archivedScripts b := by
  induction a with
  | nil => rfl
  | cons e r ih => cases e <;> simp [archivedScripts, ih]

theorem runWorkerScript_no_persist (env : ServerEnv) (script : String) :
    archivedScripts (runWorkerScript env script).2 = [] := by
  rw [runWorkerScript]
  by_cases hi : env.interpOk
  · rw [if_pos hi]
    rcases hr : env.run script with _ | ⟨o, err⟩ <;> rfl
  · rw [if_neg hi]; rfl

/-- Outcome-independent shape of a non-rejected request's trace. -/
theorem renderPlot_trace (env : ServerEnv) (req : RenderRequest)
    (hc : ¬ pyStrip req.code = "") :
    (renderPlot env req).2 = baseTrace env req ∨
    ∃ p : Payload, (renderPlot env req).2 = baseTrace env req ++
      [Ev.persist env.freshId (buildWorkerScript req) p.png p.logs] := by
  rw [renderPlot, if_neg hc]
  rcases (runWorkerScript env (buildWorkerScript req)).1 with e | p
  · cases e <;> exact Or.inl rfl
  · exact Or.inr ⟨p, rfl⟩

theorem baseTrace_no_persist (env : ServerEnv) (req : RenderRequest) :
    archivedScripts (baseTrace env req) = [] := by
  have h : archivedScripts (baseTrace env req) =
      archivedScripts (runWorkerScript env (buildWorkerScript req)).2 := rfl
  rw [h]
  exact runWorkerScript_no_persist env (buildWorkerScript req)

/-- Every program text archived for a request is the synthesized worker
script of that request's parameters. -/
theorem renderPlot_archived (env : ServerEnv) (req : RenderRequest) (s : String)
    (h : s ∈ archivedScripts (renderPlot env req).2) :
    s = buildWorkerScript req := by
  by_cases hc : pyStrip req.code = ""
  · rw [renderPlot, if_pos hc] at h
    simp [archivedScripts] at h
  · rcases renderPlot_trace env req hc with ht | ⟨p, ht⟩
    · rw [ht, baseTrace_no_persist] at h
      exact absurd h (List.not_mem_nil s)
    · rw [ht, archivedScripts_append, baseTrace_no_persist] at h
      simp [archivedScripts] at h
      exact h

/-- C6.  The Executable-Unit Synthesizer is a pure, deterministic function
of the render parameters: any two program texts archived for the same
RenderParameters — under any two environments, hence after re-executing
the archived program text through the same pipeline — are the synthesized
worker script of those parameters and are byte-identical. -/
theorem synthesizer_deterministic (env1 env2 : ServerEnv) (req : RenderRequest)
    (s1 s2 : String)
    (h1 : s1 ∈ archivedScripts (renderPlot env1 req).2)
    (h2 : s2 ∈ archivedScripts (renderPlot env2 req).2) :
    s1 = buildWorkerScript req ∧ s1 = s2 := by
  have e1 := renderPlot_archived env1 req s1 h1
  have e2 := renderPlot_archived env2 req s2 h2
  exact ⟨e1, e1.trans e2.symm⟩

def envC6 : ServerEnv :=
  { freshId := "id6", interpOk := true,
    run := fun _ => .completed "PAYLOADLINE" "",
    decode := fun _ =>
      some { png := some "P6", svg := some "S6", logs := some "L6", error := none } }

def reqC6 : RenderRequest :=
  { code := "plt.plot([3, 1, 4])", width := 6, height := 4, dpi := 100, timeout := 60 }

theorem synthesizer_deterministic_witness :
    buildWorkerScript reqC6 = buildWorkerScript reqC6 ∧
    buildWorkerScript reqC6 = buildWorkerScript reqC6 :=
  synthesizer_deterministic envC6 envC6 reqC6 _ _
    (show buildWorkerScript reqC6 ∈ [buildWorkerScript reqC6] from
      List.mem_singleton_self _)
    (show buildWorkerScript reqC6 ∈ [buildWorkerScript reqC6] from
      List.mem_singleton_self _)

/-- C10.  The Synthesizer normalizes Windows line endings in the
submitted source before embedding it: for every two render requests
identical except that one source text uses CR-LF where the other uses
LF, the synthesized program texts are byte-identical. -/
theorem crlf_normalization (req : RenderRequest) (c1 c2 : String)
    (hcr : crChar ∉ c1.data)
    (hexp : c2.data = expandLF c1.data) :
    buildWorkerScript { req with code := c2 } =
      buildWorkerScript { req with code := c1 } := by
  have hnorm : normalizeCRLF c2 = normalizeCRLF c1 := by
    unfold normalizeCRLF
    rw [hexp, normChars_expandLF c1.data hcr, normChars_noCR c1.data hcr]
  show workerTemplate1 ++ pyFloat req.width ++ ", " ++ pyFloat req.height ++
      workerTemplate2 ++ toString req.dpi ++ workerTemplate3 ++
      pyRepr (normalizeCRLF c2) ++ workerTemplate4 =
    workerTemplate1 ++ pyFloat req.width ++ ", " ++ pyFloat req.height ++
      workerTemplate2 ++ toString req.dpi ++ workerTemplate3 ++
      pyRepr (normalizeCRLF c1) ++ workerTemplate4
  rw [hnorm]

def reqC10 : RenderRequest :=
  { code := "", width := 12, height := 8, dpi := 150, timeout := 120 }

theorem crlf_normalization_witness :
    buildWorkerScript { reqC10 with code := "plt.plot([1])\r\nplt.show()\r\n" } =
      buildWorkerScript { reqC10 with code := "plt.plot([1])\nplt.show()\n" } :=
  crlf_normalization reqC10 "plt.plot([1])\nplt.show()\n"
    "plt.plot([1])\r\nplt.show()\r\n" (by decide) (by decide)

end PlotCouncil
